import Mathlib

/-!
# Verification of the IC-7100 radio controller (`radio.py`)

A shallow embedding of the serial command codec and controller operations of
`radio.py`, together with theorems settling the specification claims.

Modelling conventions:
* Bytes are `Nat`; the Python 2 function `chr(i)` accepts only `0 ≤ i ≤ 255`, so the
  serialisation step of `Connection.send_cmd` fails on any value `≥ 256`.
* Python exceptions are modelled with `Except PyErr`; a raised exception
  propagates out of a controller method, leaving all object state as it was.
* The serial port is modelled as a `Channel`: whether a write succeeds, and a
  stream of per-attempt read results (`none` = `serial` timeout, i.e.
  `self._port.read(1)` returned the empty string).
* The observable effect of a controller method is modelled as a state
  transformer on `Sys` (the `Radio` record plus the cumulative list of bytes
  written to the channel), returning `Except PyErr Unit` (the methods return
  `None` on success).
-/

set_option autoImplicit false

/-- Python exceptions raised by the code under study. -/
inductive PyErr where
  /-- The `Invalid command preamble` ValueError in `cmd_from_binary`. -/
  | invalidPreamble
  /-- The `Invalid controller/transceiver addresses` ValueError in `cmd_from_binary`. -/
  | invalidAddresses
  /-- Python `IndexError` from indexing a too-short list. -/
  | indexError
  /-- The `Invalid memory/bank number` ValueError from `goto_mem` / `select_bank`. -/
  | valueErrorArg
  /-- `ValueError` from Python 2 `chr(i)` with `i` outside `range(256)`, raised
  while `send_cmd` joins the command bytes into a string, before any write. -/
  | chrValueError
  /-- A transport-level failure of `self._port.write(...)`. -/
  | ioError
  /-- Python `KeyError` from a dict lookup (`repeatedFEs[...]` in `turn_on`). -/
  | keyError
  deriving DecidableEq

/-- `Command.PREAMBLE = [0xFE, 0xFE]`. -/
def PREAMBLE : List Nat := [0xFE, 0xFE]

/-- `Command.TRANSCEIVER_ADDRESS = [0x88]`. -/
def TRANSCEIVER_ADDRESS : List Nat := [0x88]

/-- `Command.CONTROLLER_ADDRESS = [0xE0]`. -/
def CONTROLLER_ADDRESS : List Nat := [0xE0]

/-- `Command.END_OF_MSG = 0xFD`. -/
def END_OF_MSG : Nat := 0xFD

/-- The `Command` class: `cmd_num`, optional `subcmd_num`, optional `data`.
`Command.__init__` sets all three to `None`; every call site in the source
invokes `set_num` before `render`, so `cmd_num` is modelled as required. -/
structure Command where
  cmd_num : Nat
  subcmd_num : Option Nat := none
  data : Option (List Nat) := none
  deriving DecidableEq

/-- `Command.render`: `PREAMBLE + TRANSCEIVER_ADDRESS + CONTROLLER_ADDRESS`,
then append `cmd_num`, then `subcmd_num` if set, then extend with `data` if
set, then append `END_OF_MSG`. -/
def Command.render (c : Command) : List Nat :=
  PREAMBLE ++ TRANSCEIVER_ADDRESS ++ CONTROLLER_ADDRESS ++ [c.cmd_num]
    ++ (match c.subcmd_num with
        | some s => [s]
        | none => [])
    ++ (match c.data with
        | some d => d
        | none => [])
    ++ [END_OF_MSG]

/-- The `Radio` class: the model record, with the defaults of
`Radio.__init__`. Python float literals are modelled as the exact rationals
they denote in the source text. -/
structure Radio where
  frequency : ℚ := (146960 : ℚ) / 1000
  mode : String := "VHF"
  memory_num : Nat := 1
  memory_bank : Nat := 1
  transmitting : Bool := false
  power_frac : ℚ := (5 : ℚ) / 100
  data_mode : Bool := true
  swr_meter : Nat := 0
  signal_meter : Nat := 0
  external_speaker_active : Bool := true
  backlight_frac : ℚ := (3 : ℚ) / 10
  deriving DecidableEq

/-- The serial port (`Connection._port`), abstracted: `writeOk` says whether
`write` succeeds without an `IOError`; `reads i` is the result of the `i`-th
call to `self._port.read(1)` (`none` when the 0.1 s timeout elapses with no
byte). -/
structure Channel where
  writeOk : Bool
  reads : Nat → Option Nat

/-- Observable state of a controller session: the `Radio` record plus all
bytes successfully written to the serial channel so far. -/
structure Sys where
  radio : Radio := {}
  wire : List Nat := []
  deriving DecidableEq

/-- `Connection.BAUD = 9600`. -/
def BAUD : Nat := 9600

/-- The read loop of `Connection.send_cmd`
(`for i in range(500): char = self._port.read(1); ...`), started at read
index `i` with `fuel` iterations remaining. Returns the accumulated
`response` list together with the number of read attempts performed. Each
iteration reads one byte; an empty read breaks; otherwise the byte is
appended and the loop breaks when it equals `0xFD`. -/
def send_cmd_loop (reads : Nat → Option Nat) : Nat → Nat → List Nat × Nat
  | _, 0 => ([], 0)
  | i, fuel + 1 =>
    match reads i with
    | none => ([], 1)
    | some b =>
      if b = 0xFD then ([b], 1)
      else
        let p := send_cmd_loop reads (i + 1) fuel
        (b :: p.1, p.2 + 1)

/-- `Connection.send_cmd`: join the command bytes into a string with `chr`
(Python 2 `chr` raises `ValueError` on any byte `≥ 256`, before anything is
written), write the string to the port, then run the 500-iteration read loop
and return the response. A raised exception leaves the system state
unchanged. -/
def send_cmd (ch : Channel) (cmd : List Nat) (sys : Sys) :
    Except PyErr (List Nat) × Sys :=
  if ¬ cmd.all (fun b => b < 256) then (.error .chrValueError, sys)
  else if ¬ ch.writeOk then (.error .ioError, sys)
  else (.ok (send_cmd_loop ch.reads 0 500).1,
        { sys with wire := sys.wire ++ cmd })

/-- The `repeatedFEs` dict of `Controller.turn_on`:
`{19200:25, 9600:13, 4800:7, 1200:3, 300:2}`, as a partial lookup. -/
def repeatedFEs (baud : Nat) : Option Nat :=
  if baud = 19200 then some 25
  else if baud = 9600 then some 13
  else if baud = 4800 then some 7
  else if baud = 1200 then some 3
  else if baud = 300 then some 2
  else none

/-- `Controller.turn_on`: prepend `repeatedFEs[BAUD]` raw `0xFE` bytes to the
rendered `{cmd_num: 0x18, subcmd_num: 0x01}` command and send everything in
one `send_cmd` call. -/
def turn_on (ch : Channel) (sys : Sys) : Except PyErr Unit × Sys :=
  match repeatedFEs BAUD with
  | none => (.error .keyError, sys)
  | some k =>
    let on_cmd : Command := { cmd_num := 0x18, subcmd_num := some 0x01 }
    let r := send_cmd ch (List.replicate k 0xFE ++ on_cmd.render) sys
    (r.1.map fun _ => (), r.2)

/-- `Controller.turn_off`: send `{cmd_num: 0x18, subcmd_num: 0x00}`. -/
def turn_off (ch : Channel) (sys : Sys) : Except PyErr Unit × Sys :=
  let off_cmd : Command := { cmd_num := 0x18, subcmd_num := some 0x00 }
  let r := send_cmd ch off_cmd.render sys
  (r.1.map fun _ => (), r.2)

/-- The expression `int` of the string `0x<n>` with base 0: the decimal digits of `n` reinterpreted as a
hexadecimal numeral (e.g. `10 ↦ 0x10 = 16`, `99 ↦ 0x99 = 153`,
`100 ↦ 0x100 = 256`). Implemented with explicit fuel (`n/10 < n`, so `n`
itself is enough fuel). -/
def decAsHexAux : Nat → Nat → Nat
  | 0, _ => 0
  | fuel + 1, n => if n = 0 then 0 else decAsHexAux fuel (n / 10) * 16 + n % 10

/-- Wrapper choosing the fuel for `decAsHexAux`. -/
def decAsHex (n : Nat) : Nat := decAsHexAux n n

/-- `Controller.goto_mem`: raise `ValueError` unless `1 <= mem_num <= 100`;
otherwise send `{cmd_num: 0x08, data: [0x<mem_num> read as hex]}`. -/
def goto_mem (ch : Channel) (sys : Sys) (mem_num : Nat) :
    Except PyErr Unit × Sys :=
  if ¬ (1 ≤ mem_num ∧ mem_num ≤ 100) then (.error .valueErrorArg, sys)
  else
    let cmd : Command := { cmd_num := 0x08, data := some [decAsHex mem_num] }
    let r := send_cmd ch cmd.render sys
    (r.1.map fun _ => (), r.2)

/-- `Controller.select_bank`: raise `ValueError` unless `1 <= bank_num <= 6`;
otherwise send `{cmd_num: 0x08, subcmd_num: 0xA0, data: [0x<bank_num> read as hex]}`. -/
def select_bank (ch : Channel) (sys : Sys) (bank_num : Nat) :
    Except PyErr Unit × Sys :=
  if ¬ (1 ≤ bank_num ∧ bank_num ≤ 6) then (.error .valueErrorArg, sys)
  else
    let cmd : Command :=
      { cmd_num := 0x08, subcmd_num := some 0xA0, data := some [decAsHex bank_num] }
    let r := send_cmd ch cmd.render sys
    (r.1.map fun _ => (), r.2)

/-- `Controller.rx`: send `{cmd_num: 0x1C, subcmd_num: 0x00, data: [0x00]}`.
The method does not touch `self.radio`. -/
def rx (ch : Channel) (sys : Sys) : Except PyErr Unit × Sys :=
  let cmd : Command := { cmd_num := 0x1C, subcmd_num := some 0x00, data := some [0x00] }
  let r := send_cmd ch cmd.render sys
  (r.1.map fun _ => (), r.2)

/-- `Controller.tx`: send `{cmd_num: 0x1C, subcmd_num: 0x00, data: [0x01]}`.
The method does not touch `self.radio`. -/
def tx (ch : Channel) (sys : Sys) : Except PyErr Unit × Sys :=
  let cmd : Command := { cmd_num := 0x1C, subcmd_num := some 0x00, data := some [0x01] }
  let r := send_cmd ch cmd.render sys
  (r.1.map fun _ => (), r.2)

/-- `Controller.data_mode_on`: send
`{cmd_num: 0x1A, subcmd_num: 0x06, data: [0x01, 0x02]}` and then set
`self.radio.data_mode = True`; a raised exception skips the assignment. -/
def data_mode_on (ch : Channel) (sys : Sys) : Except PyErr Unit × Sys :=
  let cmd : Command := { cmd_num := 0x1A, subcmd_num := some 0x06, data := some [0x01, 0x02] }
  match send_cmd ch cmd.render sys with
  | (.error e, sys') => (.error e, sys')
  | (.ok _, sys') =>
    (.ok (), { sys' with radio := { sys'.radio with data_mode := true } })

/-- `Controller.data_mode_off`: send
`{cmd_num: 0x1A, subcmd_num: 0x06, data: [0x00, 0x00]}` and then set
`self.radio.data_mode = False`; a raised exception skips the assignment. -/
def data_mode_off (ch : Channel) (sys : Sys) : Except PyErr Unit × Sys :=
  let cmd : Command := { cmd_num := 0x1A, subcmd_num := some 0x06, data := some [0x00, 0x00] }
  match send_cmd ch cmd.render sys with
  | (.error e, sys') => (.error e, sys')
  | (.ok _, sys') =>
    (.ok (), { sys' with radio := { sys'.radio with data_mode := false } })

/-- The Python comparison `==` between an `int` and a `list` (here the one-element address
constants `CONTROLLER_ADDRESS` / `TRANSCEIVER_ADDRESS`): values of different
types, always unequal, so the comparison is constantly `false`. -/
def pyIntEqList (_ : Nat) (_ : List Nat) : Bool := false

/-- `cmd_from_binary(binary_string)`, for a byte-list argument. Faithful to
the source line by line:
* `binary_string[:2] != cmd.PREAMBLE` — Python slicing never raises;
* `binary_string[2] != cmd.CONTROLLER_ADDRESS or binary_string[3] !=
  cmd.TRANSCEIVER_ADDRESS` — indexing raises `IndexError` on a too-short
  list, `or` short-circuits, and each `!=` compares an `int` byte against a
  one-element `list` (`pyIntEqList`, constantly unequal);
* `cmd.cmd_num = binary_string[4]` mutates a local `Command` that is then
  discarded — the function has no `return` statement, so it returns `None`
  (modelled as `.ok none`). -/
def cmd_from_binary (binary_string : List Nat) : Except PyErr (Option Nat) :=
  if binary_string.take 2 ≠ PREAMBLE then .error .invalidPreamble
  else
    match binary_string[2]? with
    | none => .error .indexError
    | some b2 =>
      if pyIntEqList b2 CONTROLLER_ADDRESS then
        match binary_string[3]? with
        | none => .error .indexError
        | some b3 =>
          if pyIntEqList b3 TRANSCEIVER_ADDRESS then
            match binary_string[4]? with
            | none => .error .indexError
            | some _ => .ok none
          else .error .invalidAddresses
      else .error .invalidAddresses

/-- A channel whose write succeeds and whose reads all time out (the radio
stays silent). -/
def okChannel : Channel := ⟨true, fun _ => none⟩

/-- A channel whose write fails with an `IOError`. -/
def badWriteChannel : Channel := ⟨false, fun _ => none⟩

/-- A channel that answers with a single garbage byte `0x00` and then goes
silent: the response never contains the terminator `0xFD`. -/
def garbageChannel : Channel := ⟨true, fun i => if i = 0 then some 0x00 else none⟩

/-- The initial session state: a fresh `Radio()` and nothing written yet. -/
def initSys : Sys := {}

/-- A session state whose radio is currently transmitting. -/
def transmitSys : Sys := { radio := { transmitting := true } }

/-- For arguments below 100, `decAsHex` packs the two decimal digits into the
two hex nibbles of a single byte, which is therefore below 256. -/
theorem decAsHex_below_100 :
    ∀ m, m < 100 → decAsHex m = 16 * (m / 10) + m % 10 ∧ decAsHex m < 256 := by
  decide

/-- The read loop of `send_cmd` performs at most `fuel` read attempts. -/
theorem send_cmd_loop_attempts_le (reads : Nat → Option Nat) :
    ∀ (fuel i : Nat), (send_cmd_loop reads i fuel).2 ≤ fuel := by
  intro fuel
  induction fuel with
  | zero => intro i; simp [send_cmd_loop]
  | succ f ih =>
    intro i
    simp only [send_cmd_loop]
    cases hr : reads i with
    | none => simp
    | some b =>
      by_cases hb : b = 0xFD
      · simp [hb]
      · simp only [hb, if_false]
        have := ih (i + 1)
        omega

/-- If the first `k` reads yield non-terminator bytes and the `k`-th read (from
start index `s`) is empty or the terminator, the loop stops after exactly
`k + 1` attempts. -/
theorem send_cmd_loop_stops_at (reads : Nat → Option Nat) :
    ∀ (fuel s k : Nat), k < fuel →
      (∀ j, j < k → reads (s + j) ≠ none ∧ reads (s + j) ≠ some 0xFD) →
      (reads (s + k) = none ∨ reads (s + k) = some 0xFD) →
      (send_cmd_loop reads s fuel).2 = k + 1 := by
  intro fuel
  induction fuel with
  | zero => intro s k hk; omega
  | succ f ih =>
    intro s k hk hpre hstop
    cases k with
    | zero =>
      simp only [Nat.add_zero] at hstop
      simp only [send_cmd_loop]
      rcases hstop with hn | hfd
      · simp [hn]
      · simp [hfd]
    | succ m =>
      have h0 := hpre 0 (by omega)
      simp only [Nat.add_zero] at h0
      cases hr : reads s with
      | none => exact absurd hr h0.1
      | some b =>
        have hb : b ≠ 0xFD := by
          intro hbe; exact h0.2 (hbe ▸ hr)
        simp only [send_cmd_loop, hr, hb, if_false]
        have hrec := ih (s + 1) m (by omega)
          (by
            intro j hj
            have hj1 := hpre (j + 1) (by omega)
            have heq : s + (j + 1) = s + 1 + j := by omega
            rwa [heq] at hj1)
          (by
            have heq : s + (m + 1) = s + 1 + m := by omega
            rwa [heq] at hstop)
        simp [hrec]

/-- C1 (counterexample): decoding the rendered power-on command
`{cmd_num: 0x18, subcmd_num: 0x01}` does not succeed: it raises the
addressing `ValueError`, so `cmd_num` is not recovered. -/
theorem cmd_from_binary_render_power_on_fails :
    cmd_from_binary (Command.render { cmd_num := 0x18, subcmd_num := some 0x01 }) =
      Except.error PyErr.invalidAddresses := rfl

/-- C1 (amended): for every valid `Command` (any `cmd_num`, optional
`subcmd_num`, optional `data`), `cmd_from_binary` applied to the output of
`Command.render` always raises the addressing `ValueError`: the outbound
frame carries the transceiver/controller addresses in the order `render`
writes them, while the decoder checks the response order, and its comparison
of an `int` byte against a one-element address `list` can never be equal, so
decoding never succeeds and never recovers `cmd_num`. -/
theorem cmd_from_binary_render_always_fails (c : Command) :
    cmd_from_binary c.render = Except.error PyErr.invalidAddresses := by
  simp [cmd_from_binary, Command.render, PREAMBLE, TRANSCEIVER_ADDRESS,
    CONTROLLER_ADDRESS, END_OF_MSG, pyIntEqList]

/-- C2 (counterexample): `goto_mem 100` does not send the frame
`FE FE 88 E0 08 64 FD` claimed by the specification: the data byte is
computed as `0x100 = 256`, which the Python 2 `chr` cannot serialise, so the
call raises a `ValueError` and writes nothing. -/
theorem goto_mem_100_raises :
    goto_mem okChannel initSys 100 = (Except.error PyErr.chrValueError, initSys) := rfl

/-- C2 (amended): `goto_mem 0` and `goto_mem 101` raise the range
`ValueError` with the system state (including the wire) untouched;
`goto_mem 1` succeeds and appends exactly `FE FE 88 E0 08 01 FD` to the
wire; `goto_mem 100` passes the range check but computes data byte
`0x100 = 256`, so serialisation raises a `ValueError` and nothing is
written. -/
theorem goto_mem_range_and_frames (ch : Channel) (sys : Sys)
    (h : ch.writeOk = true) :
    goto_mem ch sys 0 = (Except.error PyErr.valueErrorArg, sys) ∧
    goto_mem ch sys 101 = (Except.error PyErr.valueErrorArg, sys) ∧
    (goto_mem ch sys 1).1 = Except.ok () ∧
    (goto_mem ch sys 1).2 =
      { sys with wire := sys.wire ++ [0xFE, 0xFE, 0x88, 0xE0, 0x08, 0x01, 0xFD] } ∧
    goto_mem ch sys 100 = (Except.error PyErr.chrValueError, sys) := by
  refine ⟨rfl, rfl, ?_, ?_, rfl⟩ <;>
    simp [goto_mem, send_cmd, Except.map, Command.render, decAsHex, decAsHexAux,
      PREAMBLE, TRANSCEIVER_ADDRESS, CONTROLLER_ADDRESS, END_OF_MSG, h]

/-- C2 (witness). -/
theorem goto_mem_range_and_frames_witness :
    okChannel.writeOk = true ∧
    (goto_mem okChannel initSys 0 = (Except.error PyErr.valueErrorArg, initSys) ∧
     goto_mem okChannel initSys 101 = (Except.error PyErr.valueErrorArg, initSys) ∧
     (goto_mem okChannel initSys 1).1 = Except.ok () ∧
     (goto_mem okChannel initSys 1).2 =
       { initSys with wire := initSys.wire ++ [0xFE, 0xFE, 0x88, 0xE0, 0x08, 0x01, 0xFD] } ∧
     goto_mem okChannel initSys 100 = (Except.error PyErr.chrValueError, initSys)) :=
  ⟨rfl, goto_mem_range_and_frames okChannel initSys rfl⟩

/-- C3: at the configured baud rate (`BAUD = 9600`), `turn_on` writes exactly
13 standalone `0xFE` wake-up bytes immediately followed by the frame
`FE FE 88 E0 18 01 FD`, the count 13 coming from the lookup table
`300 ↦ 2, 1200 ↦ 3, 4800 ↦ 7, 9600 ↦ 13, 19200 ↦ 25`. -/
theorem turn_on_wakeup_and_frame (ch : Channel) (sys : Sys)
    (h : ch.writeOk = true) :
    repeatedFEs 300 = some 2 ∧ repeatedFEs 1200 = some 3 ∧
    repeatedFEs 4800 = some 7 ∧ repeatedFEs 9600 = some 13 ∧
    repeatedFEs 19200 = some 25 ∧ BAUD = 9600 ∧
    (turn_on ch sys).1 = Except.ok () ∧
    (turn_on ch sys).2 =
      { sys with wire := sys.wire ++
          (List.replicate 13 0xFE ++ [0xFE, 0xFE, 0x88, 0xE0, 0x18, 0x01, 0xFD]) } := by
  refine ⟨rfl, rfl, rfl, rfl, rfl, rfl, ?_, ?_⟩ <;>
    simp [turn_on, repeatedFEs, BAUD, send_cmd, Except.map, Command.render,
      PREAMBLE, TRANSCEIVER_ADDRESS, CONTROLLER_ADDRESS, END_OF_MSG, h]

/-- C3 (witness). -/
theorem turn_on_wakeup_and_frame_witness :
    okChannel.writeOk = true ∧
    (repeatedFEs 300 = some 2 ∧ repeatedFEs 1200 = some 3 ∧
     repeatedFEs 4800 = some 7 ∧ repeatedFEs 9600 = some 13 ∧
     repeatedFEs 19200 = some 25 ∧ BAUD = 9600 ∧
     (turn_on okChannel initSys).1 = Except.ok () ∧
     (turn_on okChannel initSys).2 =
       { initSys with wire := initSys.wire ++
           (List.replicate 13 0xFE ++ [0xFE, 0xFE, 0x88, 0xE0, 0x18, 0x01, 0xFD]) }) :=
  ⟨rfl, turn_on_wakeup_and_frame okChannel initSys rfl⟩

/-- C4: `data_mode_on` sends exactly the frame `FE FE 88 E0 1A 06 01 02 FD`
and sets `data_mode := true` only after the write succeeds, and
`data_mode_off` sends `FE FE 88 E0 1A 06 00 00 FD` and sets
`data_mode := false` only after the write succeeds; when the write fails,
the whole system state (radio fields and wire) is unchanged. -/
theorem data_mode_frames_and_state (ch ch' : Channel) (sys sys' : Sys)
    (h : ch.writeOk = true) (h' : ch'.writeOk = false) :
    (data_mode_on ch sys).1 = Except.ok () ∧
    (data_mode_on ch sys).2 =
      { radio := { sys.radio with data_mode := true },
        wire := sys.wire ++ [0xFE, 0xFE, 0x88, 0xE0, 0x1A, 0x06, 0x01, 0x02, 0xFD] } ∧
    (data_mode_off ch sys).1 = Except.ok () ∧
    (data_mode_off ch sys).2 =
      { radio := { sys.radio with data_mode := false },
        wire := sys.wire ++ [0xFE, 0xFE, 0x88, 0xE0, 0x1A, 0x06, 0x00, 0x00, 0xFD] } ∧
    data_mode_on ch' sys' = (Except.error PyErr.ioError, sys') ∧
    data_mode_off ch' sys' = (Except.error PyErr.ioError, sys') := by
  refine ⟨?_, ?_, ?_, ?_, ?_, ?_⟩ <;>
    simp [data_mode_on, data_mode_off, send_cmd, Except.map, Command.render,
      PREAMBLE, TRANSCEIVER_ADDRESS, CONTROLLER_ADDRESS, END_OF_MSG, h, h']

/-- C4 (witness). -/
theorem data_mode_frames_and_state_witness :
    (okChannel.writeOk = true ∧ badWriteChannel.writeOk = false) ∧
    ((data_mode_on okChannel initSys).1 = Except.ok () ∧
     (data_mode_on okChannel initSys).2 =
       { radio := { initSys.radio with data_mode := true },
         wire := initSys.wire ++ [0xFE, 0xFE, 0x88, 0xE0, 0x1A, 0x06, 0x01, 0x02, 0xFD] } ∧
     (data_mode_off okChannel initSys).1 = Except.ok () ∧
     (data_mode_off okChannel initSys).2 =
       { radio := { initSys.radio with data_mode := false },
         wire := initSys.wire ++ [0xFE, 0xFE, 0x88, 0xE0, 0x1A, 0x06, 0x00, 0x00, 0xFD] } ∧
     data_mode_on badWriteChannel initSys = (Except.error PyErr.ioError, initSys) ∧
     data_mode_off badWriteChannel initSys = (Except.error PyErr.ioError, initSys)) :=
  ⟨⟨rfl, rfl⟩, data_mode_frames_and_state okChannel badWriteChannel initSys initSys rfl rfl⟩

/-- C5 (counterexample): after a confirmed (successful) send, `tx` leaves
`transmitting` at `false` (it was claimed to set it to `true`), and `rx`
leaves `transmitting` at `true` on a transmitting radio (it was claimed to
set it to `false`): neither method touches the `Radio` record. -/
theorem rx_tx_do_not_update_transmitting :
    (tx okChannel initSys).1 = Except.ok () ∧
    initSys.radio.transmitting = false ∧
    (tx okChannel initSys).2.radio.transmitting = false ∧
    (rx okChannel transmitSys).1 = Except.ok () ∧
    transmitSys.radio.transmitting = true ∧
    (rx okChannel transmitSys).2.radio.transmitting = true := by
  exact ⟨rfl, rfl, rfl, rfl, rfl, rfl⟩

/-- C5 (amended): `rx` sends exactly the frame `FE FE 88 E0 1C 00 00 FD`
(command `0x1C`, subcommand `0x00`, data byte `0x00`) and `tx` sends exactly
`FE FE 88 E0 1C 00 01 FD` (data byte `0x01`); neither method modifies any
field of the `Radio` state — in particular `transmitting` is left unchanged
by both. -/
theorem rx_tx_frames_radio_unchanged (ch : Channel) (sys : Sys)
    (h : ch.writeOk = true) :
    (rx ch sys).1 = Except.ok () ∧
    (rx ch sys).2 =
      { sys with wire := sys.wire ++ [0xFE, 0xFE, 0x88, 0xE0, 0x1C, 0x00, 0x00, 0xFD] } ∧
    (tx ch sys).1 = Except.ok () ∧
    (tx ch sys).2 =
      { sys with wire := sys.wire ++ [0xFE, 0xFE, 0x88, 0xE0, 0x1C, 0x00, 0x01, 0xFD] } := by
  refine ⟨?_, ?_, ?_, ?_⟩ <;>
    simp [rx, tx, send_cmd, Except.map, Command.render,
      PREAMBLE, TRANSCEIVER_ADDRESS, CONTROLLER_ADDRESS, END_OF_MSG, h]

/-- C5 (witness). -/
theorem rx_tx_frames_radio_unchanged_witness :
    okChannel.writeOk = true ∧
    ((rx okChannel initSys).1 = Except.ok () ∧
     (rx okChannel initSys).2 =
       { initSys with wire := initSys.wire ++ [0xFE, 0xFE, 0x88, 0xE0, 0x1C, 0x00, 0x00, 0xFD] } ∧
     (tx okChannel initSys).1 = Except.ok () ∧
     (tx okChannel initSys).2 =
       { initSys with wire := initSys.wire ++ [0xFE, 0xFE, 0x88, 0xE0, 0x1C, 0x00, 0x01, 0xFD] }) :=
  ⟨rfl, rx_tx_frames_radio_unchanged okChannel initSys rfl⟩

/-- C6: `cmd_from_binary` does not behave as the specification describes. On
the well-formed response `FE FE E0 88 1A FD` it raises the addressing
`ValueError` instead of returning command number `0x1A` (it compares the
integer byte at index 2 with the one-element list `CONTROLLER_ADDRESS`,
which can never be equal, and it has no `return`); and on the
terminator-free input `FE FE E0 88 1A` it raises the same addressing
`ValueError` — there is no terminator check, hence no `Truncated` error at
all. -/
theorem cmd_from_binary_no_truncated_no_result :
    cmd_from_binary [0xFE, 0xFE, 0xE0, 0x88, 0x1A, 0xFD] =
      Except.error PyErr.invalidAddresses ∧
    cmd_from_binary [0xFE, 0xFE, 0xE0, 0x88, 0x1A] =
      Except.error PyErr.invalidAddresses := ⟨rfl, rfl⟩

/-- C7 (counterexample): with a channel that answers one garbage byte and
never a terminator, `data_mode_off` still reports success and flips
`data_mode` from `true` to `false`: a malformed / non-terminated response
neither surfaces a failure nor leaves the `Radio` state unmodified. -/
theorem data_mode_off_garbage_response_updates_state :
    (data_mode_off garbageChannel initSys).1 = Except.ok () ∧
    initSys.radio.data_mode = true ∧
    (data_mode_off garbageChannel initSys).2.radio.data_mode = false := by
  exact ⟨rfl, rfl, rfl⟩

/-- C7 (amended): the operations never validate the response. When the
transport write itself fails, every operation reports the `IOError` and
leaves every field of the system state (radio and wire) exactly as it was;
but whenever the write succeeds, the operation reports success regardless of
the response bytes — a malformed or never-terminated response is not
detected and does not prevent the state update. -/
theorem ops_state_on_write_failure (ch ch' : Channel) (sys : Sys)
    (h : ch.writeOk = false) (h' : ch'.writeOk = true) :
    turn_on ch sys = (Except.error PyErr.ioError, sys) ∧
    turn_off ch sys = (Except.error PyErr.ioError, sys) ∧
    goto_mem ch sys 1 = (Except.error PyErr.ioError, sys) ∧
    select_bank ch sys 3 = (Except.error PyErr.ioError, sys) ∧
    rx ch sys = (Except.error PyErr.ioError, sys) ∧
    tx ch sys = (Except.error PyErr.ioError, sys) ∧
    data_mode_on ch sys = (Except.error PyErr.ioError, sys) ∧
    data_mode_off ch sys = (Except.error PyErr.ioError, sys) ∧
    (data_mode_off ch' sys).1 = Except.ok () := by
  refine ⟨?_, ?_, ?_, ?_, ?_, ?_, ?_, ?_, ?_⟩ <;>
    simp [turn_on, turn_off, goto_mem, select_bank, rx, tx, data_mode_on,
      data_mode_off, repeatedFEs, BAUD, send_cmd, Except.map, Command.render,
      decAsHex, decAsHexAux, PREAMBLE, TRANSCEIVER_ADDRESS, CONTROLLER_ADDRESS,
      END_OF_MSG, h, h']

/-- C7 (witness). -/
theorem ops_state_on_write_failure_witness :
    (badWriteChannel.writeOk = false ∧ garbageChannel.writeOk = true) ∧
    (turn_on badWriteChannel initSys = (Except.error PyErr.ioError, initSys) ∧
     turn_off badWriteChannel initSys = (Except.error PyErr.ioError, initSys) ∧
     goto_mem badWriteChannel initSys 1 = (Except.error PyErr.ioError, initSys) ∧
     select_bank badWriteChannel initSys 3 = (Except.error PyErr.ioError, initSys) ∧
     rx badWriteChannel initSys = (Except.error PyErr.ioError, initSys) ∧
     tx badWriteChannel initSys = (Except.error PyErr.ioError, initSys) ∧
     data_mode_on badWriteChannel initSys = (Except.error PyErr.ioError, initSys) ∧
     data_mode_off badWriteChannel initSys = (Except.error PyErr.ioError, initSys) ∧
     (data_mode_off garbageChannel initSys).1 = Except.ok ()) :=
  ⟨⟨rfl, rfl⟩, ops_state_on_write_failure badWriteChannel garbageChannel initSys rfl rfl⟩

/-- C8: `select_bank 0` and `select_bank 7` raise the range `ValueError`
with the system state (and in particular the wire) untouched, while
`select_bank 3` succeeds and appends exactly the frame
`FE FE 88 E0 08 A0 03 FD` to the wire. -/
theorem select_bank_range_and_frame (ch : Channel) (sys : Sys)
    (h : ch.writeOk = true) :
    select_bank ch sys 0 = (Except.error PyErr.valueErrorArg, sys) ∧
    select_bank ch sys 7 = (Except.error PyErr.valueErrorArg, sys) ∧
    (select_bank ch sys 3).1 = Except.ok () ∧
    (select_bank ch sys 3).2 =
      { sys with wire := sys.wire ++ [0xFE, 0xFE, 0x88, 0xE0, 0x08, 0xA0, 0x03, 0xFD] } := by
  refine ⟨rfl, rfl, ?_, ?_⟩ <;>
    simp [select_bank, send_cmd, Except.map, Command.render, decAsHex, decAsHexAux,
      PREAMBLE, TRANSCEIVER_ADDRESS, CONTROLLER_ADDRESS, END_OF_MSG, h]

/-- C8 (witness). -/
theorem select_bank_range_and_frame_witness :
    okChannel.writeOk = true ∧
    (select_bank okChannel initSys 0 = (Except.error PyErr.valueErrorArg, initSys) ∧
     select_bank okChannel initSys 7 = (Except.error PyErr.valueErrorArg, initSys) ∧
     (select_bank okChannel initSys 3).1 = Except.ok () ∧
     (select_bank okChannel initSys 3).2 =
       { initSys with wire := initSys.wire ++ [0xFE, 0xFE, 0x88, 0xE0, 0x08, 0xA0, 0x03, 0xFD] }) :=
  ⟨rfl, select_bank_range_and_frame okChannel initSys rfl⟩

/-- A read stream delivering two ordinary bytes and then the terminator. -/
def stopReads : Nat → Option Nat := fun i => if i = 2 then some 0xFD else some 0x01

/-- C9: for every byte stream the channel may supply, the response read loop
of `send_cmd` performs at most 500 read attempts, and it stops early, after
exactly `k + 1` attempts, at the first read index `k` that yields either no
byte or the terminator `0xFD`. -/
theorem send_cmd_loop_bounded_and_stops (reads : Nat → Option Nat) :
    (send_cmd_loop reads 0 500).2 ≤ 500 ∧
    ∀ k, k < 500 →
      (∀ j, j < k → reads j ≠ none ∧ reads j ≠ some 0xFD) →
      (reads k = none ∨ reads k = some 0xFD) →
      (send_cmd_loop reads 0 500).2 = k + 1 := by
  refine ⟨send_cmd_loop_attempts_le reads 500 0, ?_⟩
  intro k hk hpre hstop
  exact send_cmd_loop_stops_at reads 500 0 k hk
    (by simpa using hpre) (by simpa using hstop)

/-- C9 (witness). -/
theorem send_cmd_loop_bounded_and_stops_witness :
    ((send_cmd_loop stopReads 0 500).2 ≤ 500) ∧
    (2 < 500 ∧
     (∀ j, j < 2 → stopReads j ≠ none ∧ stopReads j ≠ some 0xFD) ∧
     (stopReads 2 = none ∨ stopReads 2 = some 0xFD)) ∧
    (send_cmd_loop stopReads 0 500).2 = 2 + 1 :=
  ⟨(send_cmd_loop_bounded_and_stops stopReads).1,
   ⟨by decide, by decide, by decide⟩,
   (send_cmd_loop_bounded_and_stops stopReads).2 2 (by decide) (by decide) (by decide)⟩

/-- C10: for every `n` with `1 ≤ n ≤ 99`, `goto_mem` encodes the memory
number as the single BCD byte whose two hexadecimal digits are the decimal
digits of `n` (the decimal string of `n` read as a hexadecimal literal,
`decAsHex n = 16 * (n / 10) + n % 10`), and the sent frame is exactly
`FE FE 88 E0 08 <that byte> FD`. -/
theorem goto_mem_bcd_encoding (ch : Channel) (sys : Sys) (n : Nat)
    (h : ch.writeOk = true) (h1 : 1 ≤ n) (h99 : n ≤ 99) :
    (goto_mem ch sys n).1 = Except.ok () ∧
    (goto_mem ch sys n).2 =
      { sys with wire := sys.wire ++
          [0xFE, 0xFE, 0x88, 0xE0, 0x08, 16 * (n / 10) + n % 10, 0xFD] } ∧
    decAsHex n = 16 * (n / 10) + n % 10 := by
  have hd := decAsHex_below_100 n (by omega)
  have h100 : ¬ 100 < n := by omega
  have h256 : ¬ 256 ≤ 16 * (n / 10) + n % 10 := by omega
  refine ⟨?_, ?_, hd.1⟩ <;>
    simp [goto_mem, send_cmd, Except.map, Command.render, PREAMBLE,
      TRANSCEIVER_ADDRESS, CONTROLLER_ADDRESS, END_OF_MSG, h, h1, hd.1, h100, h256]

/-- C10 (witness). -/
theorem goto_mem_bcd_encoding_witness :
    (okChannel.writeOk = true ∧ 1 ≤ 42 ∧ 42 ≤ 99) ∧
    ((goto_mem okChannel initSys 42).1 = Except.ok () ∧
     (goto_mem okChannel initSys 42).2 =
       { initSys with wire := initSys.wire ++
           [0xFE, 0xFE, 0x88, 0xE0, 0x08, 16 * (42 / 10) + 42 % 10, 0xFD] } ∧
     decAsHex 42 = 16 * (42 / 10) + 42 % 10) :=
  ⟨⟨rfl, by decide, by decide⟩,
   goto_mem_bcd_encoding okChannel initSys 42 rfl (by decide) (by decide)⟩
